import Mathlib

/-!
Verification development for the observability demo repository:
a shallow embedding of the Go service's HTTP handlers
(src/services/go-service/main.go), of the frontend telemetry
initialization (telemetry module), and of the traffic generator script
(src/generate-traffic.sh), together with theorems settling the
specification's claims about them.
-/

/-! ## Go service: data model of a handler's observable effects -/

/-- One item of the `/data` payload, as built by `dataHandler`:
`{"id": i, "value": "item-i"}`. -/
structure DataItem where
  id : Nat
  value : String
deriving DecidableEq, Repr

/-- JSON response body shapes produced by the three Go handlers. -/
inductive Body where
  /-- `rootHandler` body: service name, message, Unix timestamp. -/
  | root (service : String) (message : String) (timestamp : Int) : Body
  /-- `dataHandler` body: the data list and the count field. -/
  | data (data : List DataItem) (count : Nat) : Body
  /-- `errorHandler` body: `{"error": "..."}`. -/
  | err (error : String) : Body
deriving DecidableEq, Repr

/-- A structured-log field value (`logJSON` takes `map[string]interface{}`;
the handlers only ever pass integers and strings). -/
inductive FieldVal where
  | natVal : Nat → FieldVal
  | strVal : String → FieldVal
deriving DecidableEq, Repr

/-- One structured log record emitted through `logJSON`
(timestamp and trace/span ids omitted: they are ambient context,
not handler data). -/
structure LogRec where
  level : String
  message : String
  fields : List (String × FieldVal)
deriving DecidableEq, Repr

/-- One metric-instrument recording (a counter `Add` or a histogram
`Record`), identified by its attribute labels.  The histogram's observed
value is the wall-clock duration and is not modelled. -/
structure MetricEvent where
  labels : List (String × String)
deriving DecidableEq, Repr

/-- Everything a single handler invocation observably produces: the HTTP
response and the telemetry emitted from the handler body. -/
structure HandlerResult where
  status : Nat
  body : Body
  spansStarted : Nat
  spansEnded : Nat
  logs : List LogRec
  counterIncs : List MetricEvent
  histObs : List MetricEvent
deriving DecidableEq, Repr

/-- `rootHandler` from main.go: one span, one INFO log, JSON body with
service/message/timestamp, then one counter increment and one histogram
observation labeled method+endpoint.  The response timestamp is
`time.Now().Unix()`, passed in as `ts`. -/
def rootHandler (ts : Int) : HandlerResult :=
  { status := 200
  , body := Body.root "go" "Hello from Go service!" ts
  , spansStarted := 1
  , spansEnded := 1
  , logs := [⟨"INFO", "Processing root request", []⟩]
  , counterIncs := [⟨[("method", "GET"), ("endpoint", "/")]⟩]
  , histObs := [⟨[("method", "GET"), ("endpoint", "/")]⟩] }

/-- The ten items `dataHandler` builds: id `0..9`, value `"item-0".."item-9"`. -/
def dataItems : List DataItem :=
  (List.range 10).map (fun i => ⟨i, "item-" ++ toString i⟩)

/-- `dataHandler` from main.go: a handler span plus a `database_query`
child span (both ended), two INFO logs (the second carrying
`item_count`), body `{"data": items, "count": 10}`, one counter increment
and one histogram observation labeled method+endpoint. -/
def dataHandler : HandlerResult :=
  { status := 200
  , body := Body.data dataItems dataItems.length
  , spansStarted := 2
  , spansEnded := 2
  , logs := [⟨"INFO", "Fetching data", []⟩,
             ⟨"INFO", "Retrieved items",
               [("item_count", FieldVal.natVal dataItems.length)]⟩]
  , counterIncs := [⟨[("method", "GET"), ("endpoint", "/data")]⟩]
  , histObs := [⟨[("method", "GET"), ("endpoint", "/data")]⟩] }

/-- `errorHandler` from main.go: one span (ended), one ERROR log carrying
`error_type`, one counter increment labeled method+endpoint+status — and
no histogram recording — then a 500 response with body
`{"error": "This is a simulated error"}`. -/
def errorHandler : HandlerResult :=
  { status := 500
  , body := Body.err "This is a simulated error"
  , spansStarted := 1
  , spansEnded := 1
  , logs := [⟨"ERROR", "Simulated error occurred",
               [("error_type", FieldVal.strVal "SimulatedError")]⟩]
  , counterIncs := [⟨[("method", "GET"), ("endpoint", "/error"),
                      ("status", "error")]⟩]
  , histObs := [] }

/-- Does a metric recording carry a label with the given key? -/
def hasLabelKey (e : MetricEvent) (k : String) : Bool :=
  e.labels.any (fun p => p.1 == k)

/-! ## Theorems for claims C1, C3, C4, C6 -/

/-- C1 counterexample: the claim "exactly one span is created and exactly
one histogram observation is recorded, including on the error path" fails
on the code: `dataHandler` creates two spans (handler span plus
`database_query` child), and `errorHandler` records no histogram
observation at all. -/
theorem c1_counterexample :
    dataHandler.spansStarted = 2 ∧ errorHandler.histObs = [] := by
  decide

/-- C1 amended: every handler finalizes exactly as many spans as it
creates (root and error create one, data creates two), emits at least one
LogRecord, and records exactly one counter increment; root and data
record exactly one histogram observation, but the error path records
none. -/
theorem c1_amended (ts : Int) :
    ((rootHandler ts).spansStarted = 1 ∧
     (rootHandler ts).spansEnded = (rootHandler ts).spansStarted ∧
     1 ≤ (rootHandler ts).logs.length ∧
     (rootHandler ts).counterIncs.length = 1 ∧
     (rootHandler ts).histObs.length = 1) ∧
    (dataHandler.spansStarted = 2 ∧
     dataHandler.spansEnded = dataHandler.spansStarted ∧
     1 ≤ dataHandler.logs.length ∧
     dataHandler.counterIncs.length = 1 ∧
     dataHandler.histObs.length = 1) ∧
    (errorHandler.spansStarted = 1 ∧
     errorHandler.spansEnded = errorHandler.spansStarted ∧
     1 ≤ errorHandler.logs.length ∧
     errorHandler.counterIncs.length = 1 ∧
     errorHandler.histObs.length = 0) := by
  refine ⟨⟨?_, ?_, ?_, ?_, ?_⟩, by decide, by decide⟩ <;> rfl

/-- C3: `GET /error` always returns HTTP 500 with the fixed JSON body
`{"error": "This is a simulated error"}`, and the handler still emits a
complete span/log/metric triplet: one finalized span, at least one log
record, and at least one metric recording (the counter increment). -/
theorem c3_error_endpoint :
    errorHandler.status = 500 ∧
    errorHandler.body = Body.err "This is a simulated error" ∧
    errorHandler.spansStarted = 1 ∧
    errorHandler.spansEnded = 1 ∧
    1 ≤ errorHandler.logs.length ∧
    1 ≤ errorHandler.counterIncs.length := by
  decide

/-- C4: `GET /data` returns 200 with body `{"data": [10 items, id 0..9,
value "item-0".."item-9"], "count": 10}`, records exactly one histogram
observation labeled `endpoint=/data`, and emits a log record carrying
`item_count = 10`. -/
theorem c4_data_endpoint :
    dataHandler.status = 200 ∧
    dataHandler.body =
      Body.data
        [⟨0, "item-0"⟩, ⟨1, "item-1"⟩, ⟨2, "item-2"⟩, ⟨3, "item-3"⟩,
         ⟨4, "item-4"⟩, ⟨5, "item-5"⟩, ⟨6, "item-6"⟩, ⟨7, "item-7"⟩,
         ⟨8, "item-8"⟩, ⟨9, "item-9"⟩] 10 ∧
    dataHandler.histObs.length = 1 ∧
    (∀ e ∈ dataHandler.histObs, ("endpoint", "/data") ∈ e.labels) ∧
    (∃ l ∈ dataHandler.logs,
      ("item_count", FieldVal.natVal 10) ∈ l.fields) := by
  refine ⟨rfl, by decide, by decide, by decide, ?_⟩
  exact ⟨⟨"INFO", "Retrieved items", [("item_count", FieldVal.natVal 10)]⟩,
    by decide, by decide⟩

/-- C6 counterexample: the claim that every handler's counter increment
carries a `status` label fails at `rootHandler` (timestamp 0): its single
counter increment is labeled only with method and endpoint. -/
theorem c6_counterexample :
    ((rootHandler 0).counterIncs.all (fun e => hasLabelKey e "status"))
      = false := by
  decide

/-- C6 amended: the root and data handlers' counter increment and
histogram observation carry exactly the method and endpoint labels (no
status); the error handler's counter increment additionally carries a
status label, and the error handler records no histogram observation. -/
theorem c6_amended (ts : Int) :
    (rootHandler ts).counterIncs =
      [⟨[("method", "GET"), ("endpoint", "/")]⟩] ∧
    (rootHandler ts).histObs =
      [⟨[("method", "GET"), ("endpoint", "/")]⟩] ∧
    dataHandler.counterIncs =
      [⟨[("method", "GET"), ("endpoint", "/data")]⟩] ∧
    dataHandler.histObs =
      [⟨[("method", "GET"), ("endpoint", "/data")]⟩] ∧
    errorHandler.counterIncs =
      [⟨[("method", "GET"), ("endpoint", "/error"), ("status", "error")]⟩] ∧
    errorHandler.histObs = [] := by
  refine ⟨rfl, rfl, by decide, by decide, by decide, by decide⟩

/-! ## Traffic generator: embedding of generate-traffic.sh -/

/-- Service base URLs from the top of generate-traffic.sh. -/
def PYTHON_SERVICE : String := "http://localhost:8001"

/-- Go service base URL. -/
def GO_SERVICE : String := "http://localhost:8002"

/-- Rust service base URL. -/
def RUST_SERVICE : String := "http://localhost:8003"

/-- Frontend base URL. -/
def NEXTJS_FRONTEND : String := "http://localhost:3001"

/-- The curl options `make_request` passes before the URL: silent,
discard body, write out the HTTP code.  No timeout option of any kind is
present. -/
def curlFlags : List String :=
  ["-s", "-o", "/dev/null", "-w", "%{http_code}"]

/-- The full curl command line of `make_request`: the fixed flags
followed by the endpoint URL. -/
def curlArgs (endpoint : String) : List String :=
  curlFlags ++ [endpoint]

/-- The status string `make_request` records from the command
substitution: curl's `%{http_code}` write-out when a response arrives;
when the call fails at the transport level, curl still prints its
write-out — `000` — and, because curl then exits non-zero, the
`|| echo "000"` fallback runs as well, so the captured string is the
concatenation `"000" ++ "000"` = `"000000"`. -/
def recordStatus (resp : Option String) : String :=
  match resp with
  | none => "000" ++ "000"
  | some code => code

/-- `make_request`'s success classification: the recorded status counts
as successful exactly when it is "200" or "500" (the ✓ branch of the if). -/
def classifySuccess (code : String) : Bool :=
  code == "200" || code == "500"

/-- The outcome `make_request` logs for one call: the URL, the recorded
status and whether it was classified successful.  `make_request` always
returns to its caller regardless of the transport outcome. -/
structure CallResult where
  url : String
  status : String
  ok : Bool
deriving DecidableEq, Repr

/-- One `make_request` invocation, given the transport response for the
URL (`none` = timeout / connection refused / no response). -/
def make_request (resp : Option String) (url : String) : CallResult :=
  let code := recordStatus resp
  ⟨url, code, classifySuccess code⟩

/-- The ordered list of URLs the `user_journey` function requests for a
given journey number (the `case $journey_type in` table).  Journey 7
draws two further random numbers to pick one of three services and one of
two endpoints; journey numbers outside 1–8 match no case and perform no
calls. -/
def journeyUrls (j r1 r2 : Nat) : List String :=
  match j with
  | 1 => [NEXTJS_FRONTEND, PYTHON_SERVICE ++ "/", GO_SERVICE ++ "/",
          RUST_SERVICE ++ "/"]
  | 2 => [PYTHON_SERVICE ++ "/data", GO_SERVICE ++ "/data",
          RUST_SERVICE ++ "/data"]
  | 3 => [PYTHON_SERVICE ++ "/error"]
  | 4 => [PYTHON_SERVICE ++ "/", PYTHON_SERVICE ++ "/data",
          PYTHON_SERVICE ++ "/data"]
  | 5 => [GO_SERVICE ++ "/", GO_SERVICE ++ "/data", GO_SERVICE ++ "/data"]
  | 6 => [RUST_SERVICE ++ "/", RUST_SERVICE ++ "/data",
          RUST_SERVICE ++ "/data"]
  | 7 =>
    [([PYTHON_SERVICE, GO_SERVICE, RUST_SERVICE].getD (r1 % 3) "") ++
       (["/", "/data"].getD (r2 % 2) "")]
  | 8 => [GO_SERVICE ++ "/error", RUST_SERVICE ++ "/error"]
  | _ => []

/-- `user_journey`: perform every step of the selected journey in order,
recording each call's outcome via `make_request`; the transport oracle
gives each URL's response (or lack of one). -/
def user_journey (j r1 r2 : Nat) (oracle : String → Option String) :
    List CallResult :=
  (journeyUrls j r1 r2).map (fun u => make_request (oracle u) u)

/-- The weighted branching of the main loop: given the draw
`random = RANDOM % 100`, which journey number runs. -/
def selectJourney (r : Nat) : Nat :=
  if r < 25 then 1
  else if r < 45 then 2
  else if r < 50 then 3
  else if r < 60 then 4
  else if r < 70 then 5
  else if r < 80 then 6
  else if r < 85 then 8
  else 7

/-- The amount the main loop adds to `request_count` after running each
journey. -/
def journeyIncrement (j : Nat) : Nat :=
  match j with
  | 1 => 4
  | 2 => 3
  | 3 => 1
  | 4 => 3
  | 5 => 3
  | 6 => 3
  | 8 => 2
  | 7 => 1
  | _ => 0

/-- How many draws land on journey `j` out of the 100 possible values of
`RANDOM % 100`: the journey's effective weight in percent. -/
def journeyWeight (j : Nat) : Nat :=
  ((List.range 100).filter (fun r => selectJourney r = j)).length

/-- One iteration's inputs in the main loop: the elapsed wall-clock
seconds read at the top, the `RANDOM` draw for journey selection, and the
two further `RANDOM` draws journey 7 may consume. -/
structure Tick where
  elapsed : Nat
  r : Nat
  r1 : Nat
  r2 : Nat

/-- The main traffic loop: at each iteration, if `elapsed ≥ DURATION` the
loop breaks, reporting the accumulated `request_count`; otherwise it
selects a journey from `RANDOM % 100`, runs it, and adds the journey's
increment to `request_count`.  Returns the final `request_count` and the
per-iteration URL lists actually requested. -/
def runLoop (duration : Nat) : List Tick → Nat × List (List String)
  | [] => (0, [])
  | t :: rest =>
    if duration ≤ t.elapsed then (0, [])
    else
      let j := selectJourney (t.r % 100)
      let out := runLoop duration rest
      (journeyIncrement j + out.1, journeyUrls j t.r1 t.r2 :: out.2)

/-! ## Theorems for claims C2, C5, C7, C8, C9 -/

/-- C2: journey selection follows exactly the claimed weighted table over
the draw `r % 100`: 25% dashboard load (journey 1), 20% data fetch
(journey 2), 5% single error (journey 3), 10% each for the Python, Go and
Rust heavy loads (journeys 4, 5, 6 on 50–59, 60–69, 70–79), 5%
multi-service error (journey 8 on 80–84) and 15% random single call
(journey 7 on 85–99); the eight static weights sum to exactly 100. -/
theorem c2_weighted_selection (r : Nat) :
    ((selectJourney (r % 100) = 1 ↔ r % 100 < 25) ∧
     (selectJourney (r % 100) = 2 ↔ 25 ≤ r % 100 ∧ r % 100 < 45) ∧
     (selectJourney (r % 100) = 3 ↔ 45 ≤ r % 100 ∧ r % 100 < 50) ∧
     (selectJourney (r % 100) = 4 ↔ 50 ≤ r % 100 ∧ r % 100 < 60) ∧
     (selectJourney (r % 100) = 5 ↔ 60 ≤ r % 100 ∧ r % 100 < 70) ∧
     (selectJourney (r % 100) = 6 ↔ 70 ≤ r % 100 ∧ r % 100 < 80) ∧
     (selectJourney (r % 100) = 8 ↔ 80 ≤ r % 100 ∧ r % 100 < 85) ∧
     (selectJourney (r % 100) = 7 ↔ 85 ≤ r % 100)) ∧
    (journeyWeight 1 = 25 ∧ journeyWeight 2 = 20 ∧ journeyWeight 3 = 5 ∧
     journeyWeight 4 = 10 ∧ journeyWeight 5 = 10 ∧ journeyWeight 6 = 10 ∧
     journeyWeight 8 = 5 ∧ journeyWeight 7 = 15 ∧
     journeyWeight 1 + journeyWeight 2 + journeyWeight 3 + journeyWeight 4 +
       journeyWeight 5 + journeyWeight 6 + journeyWeight 8 + journeyWeight 7
       = 100) := by
  constructor
  · have h : r % 100 < 100 := Nat.mod_lt _ (by decide)
    revert h
    exact (by decide :
      ∀ m < 100,
        (selectJourney m = 1 ↔ m < 25) ∧
        (selectJourney m = 2 ↔ 25 ≤ m ∧ m < 45) ∧
        (selectJourney m = 3 ↔ 45 ≤ m ∧ m < 50) ∧
        (selectJourney m = 4 ↔ 50 ≤ m ∧ m < 60) ∧
        (selectJourney m = 5 ↔ 60 ≤ m ∧ m < 70) ∧
        (selectJourney m = 6 ↔ 70 ≤ m ∧ m < 80) ∧
        (selectJourney m = 8 ↔ 80 ≤ m ∧ m < 85) ∧
        (selectJourney m = 7 ↔ 85 ≤ m)) (r % 100)
  · decide

/-- C5 counterexample: the claim says a no-response call is recorded as
"000", but the command substitution captures curl's own 000 write-out
followed by the `|| echo "000"` fallback: the recorded status is
"000000", not "000". -/
theorem c5_counterexample :
    recordStatus none = "000000" ∧ recordStatus none ≠ "000" := by
  decide

/-- C5 amended: a call is classified successful exactly when a response
arrived with status "200" or "500"; every other outcome — any other
status, and the no-response case, recorded as "000000" (curl's 000
write-out plus the echo fallback) — is classified a connectivity
failure. -/
theorem c5_amended (resp : Option String) :
    (classifySuccess (recordStatus resp) = true ↔
      resp = some "200" ∨ resp = some "500") ∧
    recordStatus none = "000000" ∧
    classifySuccess "000000" = false := by
  refine ⟨?_, by decide, by decide⟩
  cases resp with
  | none => decide
  | some code =>
    simp [recordStatus, classifySuccess, Bool.or_eq_true, beq_iff_eq]

/-- C7: a scheduler run with `DURATION = 0` breaks out of the loop at the
first elapsed-time check, whatever the iteration inputs are: it executes
zero journeys, issues zero requests and reports `request_count = 0`. -/
theorem c7_zero_duration (ticks : List Tick) :
    runLoop 0 ticks = (0, []) := by
  cases ticks with
  | nil => rfl
  | cons t rest => simp [runLoop]

/-- C8 counterexample: the claim that every outbound call applies a
bounded timeout fails: the curl invocation for a concrete journey step
(the Python `/data` call) carries no `--max-time`, `-m` or
`--connect-timeout` option — no timeout option at all. -/
theorem c8_counterexample :
    "--max-time" ∉ curlArgs (PYTHON_SERVICE ++ "/data") ∧
    "-m" ∉ curlArgs (PYTHON_SERVICE ++ "/data") ∧
    "--connect-timeout" ∉ curlArgs (PYTHON_SERVICE ++ "/data") := by
  decide

/-- C8 amended: outbound calls apply no bounded timeout (the curl flag
list contains no timeout option); a call that fails at the transport
level is nevertheless recorded as a failed call — its captured status
"000000" is not classified successful — without aborting the loop:
`user_journey` is a total function that still performs every step of the
journey whatever the transport oracle answers, recording `ok = false`
whenever no response arrives. -/
theorem c8_amended (j r1 r2 : Nat) (oracle : String → Option String)
    (url : String) :
    ("--max-time" ∉ curlFlags ∧ "-m" ∉ curlFlags ∧
     "--connect-timeout" ∉ curlFlags) ∧
    make_request none url = ⟨url, "000000", false⟩ ∧
    (user_journey j r1 r2 oracle).length = (journeyUrls j r1 r2).length ∧
    (∀ c ∈ user_journey j r1 r2 (fun _ => none),
      c.status = "000000" ∧ c.ok = false) := by
  refine ⟨by decide, rfl, ?_, ?_⟩
  · simp [user_journey]
  · intro c hc
    simp only [user_journey, List.mem_map] at hc
    obtain ⟨u, _, rfl⟩ := hc
    exact ⟨rfl, rfl⟩

/-- `selectJourney` only ever produces one of the eight journey numbers. -/
theorem selectJourney_mem (m : Nat) :
    selectJourney m ∈ [1, 2, 3, 4, 5, 6, 7, 8] := by
  unfold selectJourney
  repeat' split
  all_goals simp

/-- For every journey the loop can select, the amount added to
`request_count` equals the number of HTTP calls `user_journey` performs,
whatever further random draws journey 7 consumes. -/
theorem journeyIncrement_eq_length (j r1 r2 : Nat)
    (h : j ∈ [1, 2, 3, 4, 5, 6, 7, 8]) :
    journeyIncrement j = (journeyUrls j r1 r2).length := by
  fin_cases h <;> simp [journeyIncrement, journeyUrls]

/-- C9: at the end of any run of the main loop, the accumulated
`request_count` equals the total number of HTTP requests issued across
the executed journeys — because each journey's increment matches its call
count: dashboard load 4, data fetch 3, single error 1, each per-service
heavy load 3, multi-service error 2, random single call 1.  Quantifying
over all tick lists covers every iteration: each prefix of a run is
itself a run. -/
theorem c9_request_count_invariant (duration : Nat) (ticks : List Tick) :
    (runLoop duration ticks).1 =
      (((runLoop duration ticks).2.map List.length).sum) ∧
    (journeyIncrement 1 = 4 ∧ journeyIncrement 2 = 3 ∧
     journeyIncrement 3 = 1 ∧ journeyIncrement 4 = 3 ∧
     journeyIncrement 5 = 3 ∧ journeyIncrement 6 = 3 ∧
     journeyIncrement 8 = 2 ∧ journeyIncrement 7 = 1) := by
  refine ⟨?_, by decide⟩
  induction ticks with
  | nil => simp [runLoop]
  | cons t rest ih =>
    by_cases h : duration ≤ t.elapsed
    · simp [runLoop, h]
    · simp only [runLoop, if_neg h, List.map_cons, List.sum_cons]
      rw [journeyIncrement_eq_length _ t.r1 t.r2 (selectJourney_mem _), ih]

/-! ## Frontend telemetry initialization (instrumentation module) -/

/-- The observable outcome of one `initializeTelemetry` call: the value
of the module-level `isInitialized` flag afterwards, whether the
`try` block ran (the tracer provider, OTLP exporter and instrumentation
registrations are constructed only inside it), and whether the call
returned early through one of the two guards. -/
structure InitOutcome where
  initializedAfter : Bool
  enteredTry : Bool
  returnedEarly : Bool
deriving DecidableEq, Repr

/-- `initializeTelemetry` from the frontend telemetry module: return
early when not on the client (`window` undefined); return early when
`isInitialized` is already set; otherwise run the construction block —
`isInitialized` becomes true only if it completes without throwing
(`tryCompletes`); a thrown error is caught and leaves the flag unset. -/
def initializeTelemetry (isClient tryCompletes isInitialized : Bool) :
    InitOutcome :=
  if !isClient then ⟨isInitialized, false, true⟩
  else if isInitialized then ⟨isInitialized, false, true⟩
  else if tryCompletes then ⟨true, true, false⟩
  else ⟨isInitialized, true, false⟩

/-- A sequence of `initializeTelemetry` calls against the module-level
flag, each call described by (is client side, try block completes).
Returns the final flag and how many calls successfully initialized
telemetry (entered the construction block and set the flag). -/
def runInitCalls : Bool → List (Bool × Bool) → Bool × Nat
  | s, [] => (s, 0)
  | s, (c, t) :: rest =>
    let o := initializeTelemetry c t s
    let out := runInitCalls o.initializedAfter rest
    (out.1, (if o.enteredTry && o.initializedAfter then 1 else 0) + out.2)

/-- Once the flag is set, every further call returns early, constructs
nothing, and performs no successful initialization. -/
theorem runInitCalls_initialized (calls : List (Bool × Bool)) :
    runInitCalls true calls = (true, 0) := by
  induction calls with
  | nil => rfl
  | cons p rest ih =>
    obtain ⟨c, t⟩ := p
    cases c <;> simp [runInitCalls, initializeTelemetry, ih]

/-- C10: `initializeTelemetry` is idempotent.  Once the flag is set, a
call returns early with no construction-block entry, whatever the try
outcome would be; the first successful client-side call sets the flag;
from the set state no further successful initialization ever happens, and
from any starting state at most one call in any sequence successfully
initializes telemetry. -/
theorem c10_init_idempotent :
    (∀ t, initializeTelemetry true t true = ⟨true, false, true⟩) ∧
    (initializeTelemetry true true false = ⟨true, true, false⟩) ∧
    (∀ calls, runInitCalls true calls = (true, 0)) ∧
    (∀ s calls, (runInitCalls s calls).2 ≤ 1) := by
  refine ⟨by decide, rfl, runInitCalls_initialized, ?_⟩
  intro s calls
  induction calls generalizing s with
  | nil => simp [runInitCalls]
  | cons p rest ih =>
    obtain ⟨c, t⟩ := p
    cases s with
    | true =>
      rw [runInitCalls_initialized]
      exact Nat.zero_le 1
    | false =>
      cases c <;> cases t <;>
        simp [runInitCalls, initializeTelemetry, runInitCalls_initialized,
          ih]

/-- Witness for the amended C1, instantiated at timestamp 0: the root
handler records exactly one histogram observation. -/
theorem c1_amended_witness : (rootHandler 0).histObs.length = 1 :=
  (c1_amended 0).1.2.2.2.2

/-- Witness for C2, instantiated at the draw 47: it selects journey 3
(the single-error journey) exactly because 45 ≤ 47 < 50. -/
theorem c2_weighted_selection_witness :
    selectJourney (47 % 100) = 3 ↔ 45 ≤ 47 % 100 ∧ 47 % 100 < 50 :=
  (c2_weighted_selection 47).1.2.2.1

/-- Witness for the amended C5, instantiated at a 404 response: it is
not classified successful. -/
theorem c5_amended_witness :
    classifySuccess (recordStatus (some "404")) = true ↔
      some "404" = some "200" ∨ some "404" = some "500" :=
  (c5_amended (some "404")).1

/-- Witness for C7, instantiated at one concrete pending tick: a
duration-0 run still performs nothing. -/
theorem c7_zero_duration_witness :
    runLoop 0 [⟨0, 30, 1, 2⟩] = (0, []) :=
  c7_zero_duration [⟨0, 30, 1, 2⟩]

/-- Witness for the amended C8, instantiated at journey 1: the journey
performs all of its steps whatever the transport outcomes. -/
theorem c8_amended_witness :
    (user_journey 1 0 0 (fun _ => none)).length =
      (journeyUrls 1 0 0).length :=
  (c8_amended 1 0 0 (fun _ => none) "").2.2.1

/-- Witness for C9, instantiated at a one-iteration run (duration 5,
draw 30, so journey 2): the final count equals the requests issued. -/
theorem c9_request_count_invariant_witness :
    (runLoop 5 [⟨0, 30, 0, 0⟩]).1 =
      (((runLoop 5 [⟨0, 30, 0, 0⟩]).2.map List.length).sum) :=
  (c9_request_count_invariant 5 [⟨0, 30, 0, 0⟩]).1

/-- Witness for the amended C6, instantiated at timestamp 0: the root
handler's counter labels are exactly method and endpoint. -/
theorem c6_amended_witness :
    (rootHandler 0).counterIncs =
      [⟨[("method", "GET"), ("endpoint", "/")]⟩] :=
  (c6_amended 0).1
